import Mathlib

/-!
# Verification of the PGM file viewer (`pgm_file_viewer.py`)

Shallow embedding of `display_pgm` from
`BO_GAIN_EXP_TIMELAPSE_WIFI2/pgm_file_viewer.py`, together with proofs of
the specification's claims about discovery, selection, format
classification, headerless-raw decoding, and the display call.

The filesystem is modelled as a flag for the existence of the fixed
folder plus an association list of (file name, byte content); file bytes
are natural numbers (values 0..255 in practice), the metadata size of a
file is the length of its content, and an open file handle is a byte
list with a read position, mirroring Python's `f.read`/`f.seek`.
-/

/-- A byte of file content, modelled as a natural number (0..255). -/
abbrev Byte := Nat

/-- A decoded image: a list of pixel rows. -/
abbrev Image := List (List Nat)

/-- An open binary file: its full content together with the current read
position, mirroring a Python file object opened with `'rb'`. -/
structure FileHandle where
  bytes : List Byte
  pos : Nat
deriving Repr, DecidableEq

/-- `f.read(n)`: return the next `n` bytes (fewer at end of file) and
advance the position. -/
def FileHandle.read (h : FileHandle) (n : Nat) : List Byte × FileHandle :=
  ((h.bytes.drop h.pos).take n, { h with pos := h.pos + n })

/-- `f.read()` with no argument: return everything from the current
position to the end of the file. -/
def FileHandle.readAll (h : FileHandle) : List Byte × FileHandle :=
  (h.bytes.drop h.pos, { h with pos := h.bytes.length })

/-- `f.seek(p)`: set the read position. -/
def FileHandle.seek (h : FileHandle) (p : Nat) : FileHandle :=
  { h with pos := p }

/-- The two-byte ASCII sequence `P5` (binary PGM magic number). -/
def pgmP5 : List Byte := [80, 53]

/-- The two-byte ASCII sequence `P2` (text PGM magic number). -/
def pgmP2 : List Byte := [80, 50]

/-- Outcome of the two-stage format classifier: the branch selected by
lines 36/42/47 of `display_pgm`, as a function of the first two bytes
and the metadata file size only. -/
inductive Classification where
  | standardHeader
  | headerlessRaw
  | unknown (size : Nat)
deriving Repr, DecidableEq

/-- `classify first_two_bytes total_size`: Standard Header when the two
bytes are `P5` or `P2`; otherwise Headerless Raw exactly when the size
is 76800; otherwise Unknown carrying the observed size. -/
def classify (firstTwo : List Byte) (size : Nat) : Classification :=
  if firstTwo = pgmP5 ∨ firstTwo = pgmP2 then .standardHeader
  else if size = 76800 then .headerlessRaw
  else .unknown size

/-- `numpy.reshape`-style row-major chunking: split a flat buffer into
consecutive rows of `n` elements each. -/
def chunks (n : Nat) (l : List α) : List (List α) :=
  match l, n with
  | [], _ => []
  | _ :: _, 0 => []
  | x :: xs, m + 1 => ((x :: xs).take (m + 1)) :: chunks (m + 1) ((x :: xs).drop (m + 1))
termination_by l.length
decreasing_by simp [List.length_drop]; omega

/-- Exceptions that can be raised inside the `try` block of
`display_pgm`. -/
inductive PyError where
  /-- `int(selection)` fails on a non-numeric string (`ValueError`). -/
  | valueError (input : String)
  /-- `files[int(selection) - 1]` is out of range (`IndexError`). -/
  | indexError
  /-- opening the selected path fails (`OSError`). -/
  | fileNotFound (name : String)
  /-- `plt.imread` fails on a malformed standard-format file. -/
  | decodeError (msg : String)
deriving Repr, DecidableEq

/-- The human-readable message printed by the `except` handler at lines
60-61: `print(f"Script Error: {e}")`. -/
def pyErrorMessage : PyError → String
  | .valueError s => "Script Error: invalid literal for int(): " ++ s
  | .indexError => "Script Error: list index out of range"
  | .fileNotFound n => "Script Error: file not found: " ++ n
  | .decodeError m => "Script Error: " ++ m

/-- The arguments the visualization block (lines 52-58) passes to the
plotting collaborator. -/
structure DisplayArgs where
  pixels : Image
  cmap : String
  vmin : Nat
  vmax : Nat
  title : String
  colorbarLabel : String
  axisOff : Bool
deriving Repr, DecidableEq

/-- Build the display call exactly as lines 52-58 do: `cmap='gray'`,
`vmin=0, vmax=255`, title `"Viewing: " + name`, colorbar label
`'Pixel Intensity (0-255)'`, and `plt.axis('off')`. -/
def mkDisplayArgs (pixels : Image) (selectedFile : String) : DisplayArgs :=
  { pixels := pixels
    cmap := "gray"
    vmin := 0
    vmax := 255
    title := "Viewing: " ++ selectedFile
    colorbarLabel := "Pixel Intensity (0-255)"
    axisOff := true }

/-- Result of the classify-and-decode stage (lines 30-49): either a
decoded image tagged with the branch that produced it, or the
unknown-format early return carrying the observed size. -/
inductive DecodeResult where
  | decoded (branch : Classification) (pixels : Image)
  | unknownSize (size : Nat)
deriving Repr, DecidableEq

/-- Lines 30-49 of `display_pgm`: open the file, peek two bytes, seek
back to the start, then branch on the magic bytes and the metadata size.
`dec` is the general-purpose decoder collaborator (`plt.imread`), which
receives the file's path and may fail. -/
def classifyAndDecode (dec : String → Except PyError Image) (path : String)
    (content : List Byte) (fileSize : Nat) : Except PyError DecodeResult :=
  let st0 : FileHandle := { bytes := content, pos := 0 }
  let magicRead := st0.read 2
  let magic := magicRead.1
  let st2 := magicRead.2.seek 0
  match classify magic fileSize with
  | .standardHeader => (dec path).map (DecodeResult.decoded .standardHeader)
  | .headerlessRaw =>
      let rawData := st2.readAll.1
      .ok (.decoded .headerlessRaw (chunks 320 rawData))
  | .unknown s => .ok (.unknownSize s)

/-- The model filesystem: whether the fixed folder `pgm_files` exists,
and the directory entries (name, byte content) in enumeration order. -/
structure FileSystem where
  folderExists : Bool
  entries : List (String × List Byte)
deriving Repr, DecidableEq

/-- Python `str.lower()`, character by character. -/
def lowerString (s : String) : String := ⟨s.data.map Char.toLower⟩

/-- Python `str.endswith(suffix)` as a suffix test on the character
lists. -/
def strEndsWith (s suffix : String) : Bool := suffix.data.isSuffixOf s.data

/-- The ASCII whitespace characters Python's `int(...)` strips. -/
def isPySpace (c : Char) : Bool :=
  c = ' ' ∨ c = '\t' ∨ c = '\n' ∨ c = '\r' ∨ c = '\x0b' ∨ c = '\x0c'

/-- Strip leading and trailing whitespace, as Python `int(...)` does
before parsing. -/
def trimAscii (cs : List Char) : List Char :=
  ((cs.dropWhile isPySpace).reverse.dropWhile isPySpace).reverse

/-- Python's `<=` on strings: lexicographic comparison of the character
sequences by code point. -/
def strLe (a b : String) : Prop := a.data ≤ b.data

instance : DecidableRel strLe := fun a b => inferInstanceAs (Decidable (a.data ≤ b.data))

instance : IsTotal String strLe := ⟨fun a b => le_total a.data b.data⟩

instance : IsTrans String strLe := ⟨fun _ _ _ => le_trans⟩

instance : IsAntisymm String strLe :=
  ⟨fun a b h1 h2 => by
    cases a; cases b
    exact congrArg String.mk (le_antisymm h1 h2)⟩

/-- Line 13: `sorted([f for f in os.listdir(folder) if
f.lower().endswith('.pgm')])` — filter the entry names by the
case-insensitive `.pgm` suffix, then sort ascending. -/
def discover (fs : FileSystem) : List String :=
  List.insertionSort strLe
    ((fs.entries.map Prod.fst).filter (fun n => strEndsWith (lowerString n) ".pgm"))

/-- Lines 19-20: the numbered listing printed for the user, with 1-based
numbering. -/
def listingLines (files : List String) : List String :=
  files.enum.map (fun p => Nat.repr (p.1 + 1) ++ ". " ++ p.2)

/-- Python `int(...)`: fold decimal digits into a number, allowing a
single underscore between digits (`1_0` is 10, `1__0` and trailing `_`
fail). -/
def parseDigitTail (acc : Nat) : List Char → Option Nat
  | [] => some acc
  | '_' :: c :: rest =>
      if c.isDigit then parseDigitTail (acc * 10 + (c.toNat - 48)) rest else none
  | '_' :: [] => none
  | c :: rest =>
      if c.isDigit then parseDigitTail (acc * 10 + (c.toNat - 48)) rest else none

/-- Python `int(...)`: a nonempty digit string (with embedded
underscores), not starting with an underscore. -/
def parseUnsigned : List Char → Option Nat
  | [] => none
  | c :: rest => if c.isDigit then parseDigitTail (c.toNat - 48) rest else none

/-- Python `int(selection)`: strip surrounding whitespace, accept an
optional sign followed by digits; `none` models the raised
`ValueError`. -/
def pyInt (s : String) : Option Int :=
  match trimAscii s.data with
  | '+' :: rest => (parseUnsigned rest).map Int.ofNat
  | '-' :: rest => (parseUnsigned rest).map (fun n => -(n : Int))
  | rest => (parseUnsigned rest).map Int.ofNat

/-- Python list indexing `l[i]`: nonnegative indices from the front,
negative indices from the back; `none` models the raised
`IndexError`. -/
def pyIndex (l : List α) (i : Int) : Option α :=
  if 0 ≤ i then l.get? i.toNat
  else if 0 ≤ (l.length : Int) + i then l.get? ((l.length : Int) + i).toNat
  else none

/-- Line 26: `files[int(selection) - 1]` — parse the selection and index
the discovered list, Python-style. -/
def selectFile (files : List String) (sel : String) : Option (Int × String) :=
  match pyInt sel with
  | none => none
  | some k => (pyIndex files (k - 1)).map (fun f => (k, f))

/-- `os.path.getsize` / `open`: look up the selected name among the
directory entries. -/
def lookupContent (fs : FileSystem) (name : String) : Option (List Byte) :=
  (fs.entries.find? (fun e => e.1 = name)).map Prod.snd

/-- Normal (non-exception) results of the `try` block: quit at the
prompt, the unknown-format early return, or a completed display call. -/
inductive TryOutcome where
  | quit
  | unknownFormat (size : Nat)
  | displayed (args : DisplayArgs)
deriving Repr, DecidableEq

/-- Lines 22-58, the body of the `try` block: quit check, selection
parse, Python indexing, size lookup, classify/decode, display. -/
def tryBody (fs : FileSystem) (files : List String) (sel : String)
    (dec : String → Except PyError Image) : Except PyError TryOutcome :=
  if lowerString sel = "q" then .ok .quit
  else
    match pyInt sel with
    | none => .error (.valueError sel)
    | some k =>
      match pyIndex files (k - 1) with
      | none => .error .indexError
      | some selectedFile =>
        match lookupContent fs selectedFile with
        | none => .error (.fileNotFound selectedFile)
        | some content =>
          let fileSize := content.length
          match classifyAndDecode dec selectedFile content fileSize with
          | .error e => .error e
          | .ok (.unknownSize s) => .ok (.unknownFormat s)
          | .ok (.decoded _ pixels) => .ok (.displayed (mkDisplayArgs pixels selectedFile))

/-- Final outcome of one invocation of `display_pgm`. `uncaught` marks
an exception escaping the function; the real `run` below never produces
it because of the `try`/`except` at lines 22 and 60. -/
inductive Outcome where
  | dirNotFound
  | noCandidates
  | quit
  | unknownFormat (size : Nat)
  | displayed (args : DisplayArgs)
  | scriptError (msg : String)
  | uncaught (e : PyError)
deriving Repr, DecidableEq

/-- Embed a normal `try`-block result into the invocation outcome. -/
def Outcome.ofTry : TryOutcome → Outcome
  | .quit => .quit
  | .unknownFormat s => .unknownFormat s
  | .displayed a => .displayed a

/-- The whole of `display_pgm`: folder check, discovery, empty check,
then the `try` block with its catch-all `except` turning any raised
exception into a printed `Script Error` message. -/
def run (fs : FileSystem) (sel : String) (dec : String → Except PyError Image) : Outcome :=
  if fs.folderExists = false then .dirNotFound
  else
    let files := discover fs
    if files = [] then .noCandidates
    else
      match tryBody fs files sel dec with
      | .ok t => Outcome.ofTry t
      | .error e => .scriptError (pyErrorMessage e)

/-- `display_pgm` as it would behave WITHOUT the `except` clause: a
raised exception escapes as `uncaught`. Used to state what the
catch-all actually prevents. -/
def runNoCatch (fs : FileSystem) (sel : String) (dec : String → Except PyError Image) : Outcome :=
  if fs.folderExists = false then .dirNotFound
  else
    let files := discover fs
    if files = [] then .noCandidates
    else
      match tryBody fs files sel dec with
      | .ok t => Outcome.ofTry t
      | .error e => .uncaught e

/-- The console message printed for each outcome (lines 9, 16, 43, 48,
61); `none` when the path prints no status message of its own. -/
def outcomeMessage : Outcome → Option String
  | .dirNotFound => some "Error: Folder 'pgm_files' not found."
  | .noCandidates => some "No files found."
  | .quit => none
  | .unknownFormat s => some ("Unknown format. Size is " ++ Nat.repr s ++ " bytes (not 76800).")
  | .displayed _ => none
  | .scriptError m => some m
  | .uncaught _ => none

/-! ## Helper lemmas about `chunks` (numpy reshape) -/

theorem chunks_nil {α : Type _} (n : Nat) : chunks n ([] : List α) = [] := by
  rw [chunks]

theorem chunks_cons {α : Type _} (m : Nat) (x : α) (xs : List α) :
    chunks (m + 1) (x :: xs) =
      ((x :: xs).take (m + 1)) :: chunks (m + 1) ((x :: xs).drop (m + 1)) := by
  rw [chunks]

theorem chunks_flatten {α : Type _} : ∀ (m : Nat) (l : List α), (chunks (m + 1) l).flatten = l
  | _, [] => by simp [chunks_nil]
  | m, x :: xs => by
    rw [chunks_cons, List.flatten_cons, chunks_flatten m ((x :: xs).drop (m + 1)),
      List.take_append_drop]
termination_by m l => l.length
decreasing_by simp; omega

theorem chunks_length_of_dvd {α : Type _} :
    ∀ (m : Nat) (l : List α), (m + 1) ∣ l.length →
      (chunks (m + 1) l).length = l.length / (m + 1)
  | _, [], _ => by simp [chunks_nil]
  | m, x :: xs, hdvd => by
    have hle : m + 1 ≤ (x :: xs).length := Nat.le_of_dvd (by simp) hdvd
    have hdvd' : (m + 1) ∣ ((x :: xs).drop (m + 1)).length := by
      simpa [List.length_drop] using (Nat.dvd_sub' hdvd dvd_rfl)
    rw [chunks_cons, List.length_cons,
      chunks_length_of_dvd m ((x :: xs).drop (m + 1)) hdvd', List.length_drop,
      Nat.div_eq_sub_div (Nat.succ_pos m) hle]
termination_by m l => l.length
decreasing_by simp; omega

theorem chunks_mem_length {α : Type _} :
    ∀ (m : Nat) (l : List α), (m + 1) ∣ l.length →
      ∀ r ∈ chunks (m + 1) l, r.length = m + 1
  | _, [], _ => by simp [chunks_nil]
  | m, x :: xs, hdvd => by
    have hle : m + 1 ≤ (x :: xs).length := Nat.le_of_dvd (by simp) hdvd
    have hdvd' : (m + 1) ∣ ((x :: xs).drop (m + 1)).length := by
      simpa [List.length_drop] using (Nat.dvd_sub' hdvd dvd_rfl)
    intro r hr
    rw [chunks_cons] at hr
    rcases List.mem_cons.mp hr with h | h
    · subst h; simp only [List.length_take, List.length_cons] at hle ⊢; omega
    · exact chunks_mem_length m ((x :: xs).drop (m + 1)) hdvd' r h
termination_by m l => l.length
decreasing_by simp; omega

/-! ## Claim theorems -/

/-- A concrete stand-in for the decoder collaborator, used by witnesses. -/
def decStub : String → Except PyError Image := fun _ => .ok [[1, 2], [3, 4]]

/-- C1: for a file whose first two bytes are not `P5`/`P2` and whose
size is exactly 76800 bytes, classification selects Headerless Raw, the
read position is reset to 0 before the bulk read (so the 2-byte peek
consumes nothing and the bulk read returns the whole file), and the
decoded result is 240 rows of 320 columns whose row-major flattening is
exactly the file's bytes. -/
theorem headerlessRaw_roundtrip (dec : String → Except PyError Image) (path : String)
    (content : List Byte)
    (h5 : content.take 2 ≠ pgmP5) (h2 : content.take 2 ≠ pgmP2)
    (hsize : content.length = 76800) :
    classify (content.take 2) content.length = Classification.headerlessRaw ∧
    ((FileHandle.read ⟨content, 0⟩ 2).2.seek 0).pos = 0 ∧
    ((FileHandle.read ⟨content, 0⟩ 2).2.seek 0).readAll.1 = content ∧
    classifyAndDecode dec path content content.length =
      .ok (.decoded .headerlessRaw (chunks 320 content)) ∧
    (chunks 320 content).length = 240 ∧
    (∀ row ∈ chunks 320 content, row.length = 320) ∧
    (chunks 320 content).flatten = content := by
  have hdvd : 320 ∣ content.length := hsize ▸ ⟨240, rfl⟩
  have hclass : classify (content.take 2) content.length = Classification.headerlessRaw := by
    rw [hsize]; simp [classify, h5, h2]
  refine ⟨hclass, rfl, by simp [FileHandle.read, FileHandle.seek, FileHandle.readAll], ?_, ?_, ?_, ?_⟩
  · simp only [classifyAndDecode, FileHandle.read, FileHandle.seek, FileHandle.readAll,
      List.drop_zero]
    rw [hclass]
  · rw [show (320 : Nat) = 319 + 1 from rfl, chunks_length_of_dvd 319 content hdvd, hsize]
  · exact chunks_mem_length 319 content hdvd
  · exact chunks_flatten 319 content

/-- Witness for C1 at the concrete 76800-byte file of constant value 7. -/
theorem headerlessRaw_roundtrip_witness :
    (List.replicate 76800 (7 : Byte)).take 2 ≠ pgmP5 ∧
    (List.replicate 76800 (7 : Byte)).take 2 ≠ pgmP2 ∧
    (List.replicate 76800 (7 : Byte)).length = 76800 ∧
    (classifyAndDecode decStub "raw.pgm" (List.replicate 76800 (7 : Byte))
        (List.replicate 76800 (7 : Byte)).length =
      .ok (.decoded .headerlessRaw (chunks 320 (List.replicate 76800 (7 : Byte)))) ∧
    (chunks 320 (List.replicate 76800 (7 : Byte))).length = 240 ∧
    (chunks 320 (List.replicate 76800 (7 : Byte))).flatten = List.replicate 76800 (7 : Byte)) := by
  have h5 : (List.replicate 76800 (7 : Byte)).take 2 ≠ pgmP5 := by
    rw [List.take_replicate]; decide
  have h2 : (List.replicate 76800 (7 : Byte)).take 2 ≠ pgmP2 := by
    rw [List.take_replicate]; decide
  have hlen : (List.replicate 76800 (7 : Byte)).length = 76800 := List.length_replicate _ _
  have h := headerlessRaw_roundtrip decStub "raw.pgm" (List.replicate 76800 (7 : Byte)) h5 h2 hlen
  exact ⟨h5, h2, hlen, h.2.2.2.1, h.2.2.2.2.1, h.2.2.2.2.2.2⟩

/-- C2: a file whose first two bytes are `P5` or `P2` is always
classified Standard Header and decoded through the decoder
collaborator, whatever its total size — the size is a free variable
here, so in particular size 76800. -/
theorem standardHeader_regardless_of_size (dec : String → Except PyError Image)
    (path : String) (content : List Byte) (size : Nat)
    (h : content.take 2 = pgmP5 ∨ content.take 2 = pgmP2) :
    classify (content.take 2) size = Classification.standardHeader ∧
    classifyAndDecode dec path content size =
      (dec path).map (DecodeResult.decoded .standardHeader) := by
  have hclass : classify (content.take 2) size = Classification.standardHeader := by
    simp [classify, h]
  refine ⟨hclass, ?_⟩
  simp only [classifyAndDecode, FileHandle.read, FileHandle.seek, List.drop_zero]
  rw [hclass]

/-- Witness for C2 at the concrete file `[80, 53, 9]` (`P5` magic) with
size exactly 76800. -/
theorem standardHeader_regardless_of_size_witness :
    (([80, 53, 9] : List Byte).take 2 = pgmP5 ∨ ([80, 53, 9] : List Byte).take 2 = pgmP2) ∧
    classify (([80, 53, 9] : List Byte).take 2) 76800 = Classification.standardHeader ∧
    classifyAndDecode decStub "hdr.pgm" [80, 53, 9] 76800 =
      (decStub "hdr.pgm").map (DecodeResult.decoded .standardHeader) := by
  have h : (([80, 53, 9] : List Byte).take 2 = pgmP5 ∨ ([80, 53, 9] : List Byte).take 2 = pgmP2) :=
    Or.inl (by decide)
  have hc := standardHeader_regardless_of_size decStub "hdr.pgm" [80, 53, 9] 76800 h
  exact ⟨h, hc.1, hc.2⟩

/-- C10: classification is a deterministic function of the first two
bytes and the total size alone — two files agreeing on both are
classified identically, whatever their names or remaining content. -/
theorem classification_deterministic (c1 c2 : List Byte)
    (hmagic : c1.take 2 = c2.take 2) (hsize : c1.length = c2.length) :
    classify (c1.take 2) c1.length = classify (c2.take 2) c2.length := by
  rw [hmagic, hsize]

/-- Witness for C10: two files with the same magic and size but
different remaining content classify identically. -/
theorem classification_deterministic_witness :
    (([80, 53, 1] : List Byte).take 2 = ([80, 53, 200] : List Byte).take 2) ∧
    (([80, 53, 1] : List Byte).length = ([80, 53, 200] : List Byte).length) ∧
    classify (([80, 53, 1] : List Byte).take 2) ([80, 53, 1] : List Byte).length =
      classify (([80, 53, 200] : List Byte).take 2) ([80, 53, 200] : List Byte).length := by
  exact ⟨by decide, by decide,
    classification_deterministic [80, 53, 1] [80, 53, 200] (by decide) (by decide)⟩

/-- A one-entry filesystem: a 3-byte `.pgm` file with no PGM magic. -/
def fsOne : FileSystem := ⟨true, [("a.pgm", [88, 89, 90])]⟩

/-- C8: a missing folder fails with the DirectoryNotFound condition and
an existing folder with no `.pgm` candidates fails with the NoCandidates
condition; in both cases the run ends there, producing that outcome
directly, so no prompt is issued and no file is read. -/
theorem discovery_failure_conditions (fs : FileSystem) (sel : String)
    (dec : String → Except PyError Image) :
    (fs.folderExists = false → run fs sel dec = Outcome.dirNotFound) ∧
    (fs.folderExists = true → discover fs = [] → run fs sel dec = Outcome.noCandidates) := by
  constructor
  · intro h
    simp [run, h]
  · intro h hempty
    simp [run, h, hempty]

/-- Witness for C8: a missing folder and an existing folder holding only
a non-`.pgm` entry. -/
theorem discovery_failure_conditions_witness :
    run ⟨false, []⟩ "1" decStub = Outcome.dirNotFound ∧
    run ⟨true, [("notes.txt", [1, 2])]⟩ "1" decStub = Outcome.noCandidates := by
  constructor
  · exact (discovery_failure_conditions ⟨false, []⟩ "1" decStub).1 rfl
  · exact (discovery_failure_conditions ⟨true, [("notes.txt", [1, 2])]⟩ "1" decStub).2 rfl
      (by decide)

/-- C7: once files are discovered, entering the quit token `q` (either
letter case) makes the run terminate immediately with the quit outcome:
no file is opened, read, classified, or displayed. -/
theorem quit_token_terminates (fs : FileSystem) (sel : String)
    (dec : String → Except PyError Image)
    (hdir : fs.folderExists = true) (hne : discover fs ≠ [])
    (hq : sel = "q" ∨ sel = "Q") :
    run fs sel dec = Outcome.quit := by
  have hlow : lowerString sel = "q" := by rcases hq with rfl | rfl <;> decide
  simp [run, tryBody, hdir, hne, hlow, Outcome.ofTry]

/-- Witness for C7 at the concrete one-file directory with input `Q`. -/
theorem quit_token_terminates_witness :
    fsOne.folderExists = true ∧ discover fsOne ≠ [] ∧
    run fsOne "Q" decStub = Outcome.quit := by
  refine ⟨rfl, by decide, ?_⟩
  exact quit_token_terminates fsOne "Q" decStub rfl (by decide) (Or.inr rfl)

/-- C4: no invocation ends in an uncaught exception — the catch-all
`except` turns every error raised inside the `try` block (selection
parsing, indexing, file opening, decoding) into a printed human-readable
`Script Error` message, and every path returns normally. -/
theorem top_level_catchall (fs : FileSystem) (sel : String)
    (dec : String → Except PyError Image) :
    (∀ e, run fs sel dec ≠ Outcome.uncaught e) ∧
    (∀ e, fs.folderExists = true → discover fs ≠ [] →
      tryBody fs (discover fs) sel dec = .error e →
      run fs sel dec = Outcome.scriptError (pyErrorMessage e)) := by
  constructor
  · intro e
    simp only [run]
    split
    · simp
    · split
      · simp
      · split
        · next t _ => cases t <;> simp [Outcome.ofTry]
        · simp
  · intro e hdir hne htry
    simp [run, hdir, hne, htry]

/-- Witness for C4: a non-numeric selection raises a `ValueError` inside
the `try` block, which the handler reports instead of crashing. -/
theorem top_level_catchall_witness :
    tryBody fsOne (discover fsOne) "abc" decStub = .error (.valueError "abc") ∧
    run fsOne "abc" decStub ≠ Outcome.uncaught (PyError.valueError "abc") ∧
    run fsOne "abc" decStub =
      Outcome.scriptError (pyErrorMessage (PyError.valueError "abc")) := by
  have h := top_level_catchall fsOne "abc" decStub
  have htry : tryBody fsOne (discover fsOne) "abc" decStub = .error (.valueError "abc") := rfl
  exact ⟨htry, h.1 _, h.2 _ rfl (by decide) htry⟩

/-- C3 fails on the code: with one discovered file, the out-of-range
selection `0` is accepted by Python's negative indexing
(`files[0 - 1]` is `files[-1]`, the last file), so classification IS
invoked and the run reaches the unknown-format report instead of
failing at selection. -/
theorem selection_zero_invokes_classification :
    run fsOne "0" decStub = Outcome.unknownFormat 3 ∧
    run fsOne "0" decStub ≠ Outcome.scriptError (pyErrorMessage PyError.indexError) := by
  constructor
  · decide
  · decide

/-- C3 (amended): a non-numeric selection fails with the caught
`ValueError`, and an integer selection whose Python index `k - 1` falls
outside `[-N, N-1]` (i.e. `k` outside `[1-N, N]`) fails with the caught
`IndexError`; in both cases the run ends in the reported script error,
so no file is classified or decoded. -/
theorem invalid_selection_rejected (fs : FileSystem) (sel : String)
    (dec : String → Except PyError Image) (k : Int)
    (hdir : fs.folderExists = true) (hne : discover fs ≠ [])
    (hq : lowerString sel ≠ "q") :
    (pyInt sel = none →
      run fs sel dec = Outcome.scriptError (pyErrorMessage (.valueError sel))) ∧
    (pyInt sel = some k → pyIndex (discover fs) (k - 1) = none →
      run fs sel dec = Outcome.scriptError (pyErrorMessage .indexError)) := by
  constructor
  · intro hp
    simp [run, tryBody, hdir, hne, hq, hp]
  · intro hp hidx
    simp [run, tryBody, hdir, hne, hq, hp, hidx]

/-- Witness for C3 (amended): with one discovered file, selection `5`
is out of range on both ends of Python's indexing and is rejected as a
script error. -/
theorem invalid_selection_rejected_witness :
    fsOne.folderExists = true ∧ discover fsOne ≠ [] ∧ lowerString "5" ≠ "q" ∧
    pyInt "5" = some 5 ∧ pyIndex (discover fsOne) (5 - 1) = none ∧
    run fsOne "5" decStub = Outcome.scriptError (pyErrorMessage PyError.indexError) := by
  refine ⟨rfl, by decide, by decide, by decide, by decide, ?_⟩
  exact (invalid_selection_rejected fsOne "5" decStub 5 rfl (by decide) (by decide)).2
    (by decide) (by decide)

/-- C5: when the selected file has neither `P5` nor `P2` as its first
two bytes and its size is not 76800 bytes, the run ends in the
UnknownFormat outcome whose printed message reports the observed size,
and the display collaborator is never invoked. -/
theorem unknown_format_aborts (fs : FileSystem) (sel : String)
    (dec : String → Except PyError Image) (k : Int) (name : String) (c : List Byte)
    (hdir : fs.folderExists = true) (hq : lowerString sel ≠ "q")
    (hk : pyInt sel = some k)
    (hidx : pyIndex (discover fs) (k - 1) = some name)
    (hlook : lookupContent fs name = some c)
    (h5 : c.take 2 ≠ pgmP5) (h2 : c.take 2 ≠ pgmP2)
    (hs : c.length ≠ 76800) :
    run fs sel dec = Outcome.unknownFormat c.length ∧
    outcomeMessage (run fs sel dec) =
      some ("Unknown format. Size is " ++ Nat.repr c.length ++ " bytes (not 76800).") ∧
    ∀ args, run fs sel dec ≠ Outcome.displayed args := by
  have hne : discover fs ≠ [] := by
    intro h
    rw [h] at hidx
    simp [pyIndex] at hidx
  have hclass : classify (c.take 2) c.length = Classification.unknown c.length := by
    simp [classify, h5, h2, hs]
  have hcd : classifyAndDecode dec name c c.length = .ok (.unknownSize c.length) := by
    simp only [classifyAndDecode, FileHandle.read, FileHandle.seek, List.drop_zero]
    rw [hclass]
  have hrun : run fs sel dec = Outcome.unknownFormat c.length := by
    simp [run, tryBody, hdir, hne, hq, hk, hidx, hlook, hcd, Outcome.ofTry]
  refine ⟨hrun, ?_, ?_⟩
  · rw [hrun]; rfl
  · intro args
    rw [hrun]
    simp

/-- Witness for C5 at the one-file directory whose file is 3 bytes of
`XYZ`: the message cites size 3 and nothing is displayed. -/
theorem unknown_format_aborts_witness :
    pyInt "1" = some 1 ∧
    pyIndex (discover fsOne) (1 - 1) = some "a.pgm" ∧
    lookupContent fsOne "a.pgm" = some [88, 89, 90] ∧
    run fsOne "1" decStub = Outcome.unknownFormat 3 ∧
    outcomeMessage (run fsOne "1" decStub) =
      some ("Unknown format. Size is " ++ Nat.repr 3 ++ " bytes (not 76800).") := by
  have h := unknown_format_aborts fsOne "1" decStub 1 "a.pgm" [88, 89, 90]
    rfl (by decide) (by decide) (by decide) (by decide) (by decide) (by decide) (by decide)
  exact ⟨by decide, by decide, by decide, h.1, h.2.1⟩

/-- Inversion for the `try` block: a displayed outcome can only arise
from a parsed selection, a successful Python indexing, an opened file,
and a decode that produced pixels, with the display arguments built by
`mkDisplayArgs` from those pixels and the selected file's name. -/
theorem tryBody_displayed_inv (fs : FileSystem) (files : List String) (sel : String)
    (dec : String → Except PyError Image) (args : DisplayArgs)
    (h : tryBody fs files sel dec = .ok (.displayed args)) :
    ∃ k name content branch pixels,
      pyInt sel = some k ∧ pyIndex files (k - 1) = some name ∧
      lookupContent fs name = some content ∧
      classifyAndDecode dec name content content.length = .ok (.decoded branch pixels) ∧
      args = mkDisplayArgs pixels name := by
  rw [tryBody] at h
  split at h
  · simp at h
  · split at h
    · simp at h
    · next k hk =>
      split at h
      · simp at h
      · next name hname =>
        split at h
        · simp at h
        · next content hcontent =>
          dsimp only at h
          split at h
          · simp at h
          · simp at h
          · next branch pixels hcd =>
            refine ⟨k, name, content, branch, pixels, hk, hname, hcontent, hcd, ?_⟩
            simpa using h.symm

/-- Inversion for the driver: a displayed outcome requires the folder to
exist, discovery to be nonempty, and the `try` block to end in a
display. -/
theorem run_displayed_inv (fs : FileSystem) (sel : String)
    (dec : String → Except PyError Image) (args : DisplayArgs)
    (h : run fs sel dec = Outcome.displayed args) :
    fs.folderExists = true ∧ discover fs ≠ [] ∧
    tryBody fs (discover fs) sel dec = .ok (.displayed args) := by
  simp only [run] at h
  split at h
  · simp at h
  · next hdir =>
    split at h
    · simp at h
    · next hne =>
      split at h
      · next t ht =>
        cases t with
        | quit => simp [Outcome.ofTry] at h
        | unknownFormat s => simp [Outcome.ofTry] at h
        | displayed a =>
          simp only [Outcome.ofTry] at h
          cases h
          exact ⟨by simpa using hdir, hne, ht⟩
      · simp at h

/-- A one-entry filesystem whose file starts with the `P5` magic. -/
def fsP5 : FileSystem := ⟨true, [("a.pgm", [80, 53, 9])]⟩

/-- C9 fails on the code for the title: the display call's title is the
string `Viewing: ` followed by the file name, not the bare file name —
here the title is `Viewing: a.pgm`, which differs from `a.pgm`. -/
theorem display_title_not_bare_name :
    run fsP5 "1" decStub = Outcome.displayed (mkDisplayArgs [[1, 2], [3, 4]] "a.pgm") ∧
    (mkDisplayArgs [[1, 2], [3, 4]] "a.pgm").title = "Viewing: a.pgm" ∧
    (mkDisplayArgs [[1, 2], [3, 4]] "a.pgm").title ≠ "a.pgm" := by
  refine ⟨by decide, rfl, by decide⟩

/-- C9 (amended): whenever the display collaborator is invoked — from
either decode path — it receives grayscale mapping, the fixed intensity
range [0, 255] (never derived from the pixels), the colorbar legend
labeled for pixel intensity, no axes, and as title the string
`Viewing: ` followed by the selected file's name. -/
theorem display_args_fixed_range (fs : FileSystem) (sel : String)
    (dec : String → Except PyError Image) (args : DisplayArgs)
    (h : run fs sel dec = Outcome.displayed args) :
    args.cmap = "gray" ∧ args.vmin = 0 ∧ args.vmax = 255 ∧
    args.colorbarLabel = "Pixel Intensity (0-255)" ∧ args.axisOff = true ∧
    ∃ k name pixels, pyInt sel = some k ∧ pyIndex (discover fs) (k - 1) = some name ∧
      args.pixels = pixels ∧ args.title = "Viewing: " ++ name := by
  obtain ⟨hdir, hne, htry⟩ := run_displayed_inv fs sel dec args h
  obtain ⟨k, name, content, branch, pixels, hk, hidx, hlook, hcd, hargs⟩ :=
    tryBody_displayed_inv fs (discover fs) sel dec args htry
  subst hargs
  exact ⟨rfl, rfl, rfl, rfl, rfl, k, name, pixels, hk, hidx, rfl, rfl⟩

/-- Witness for C9 (amended) at the one-file `P5` directory. -/
theorem display_args_fixed_range_witness :
    run fsP5 "1" decStub = Outcome.displayed (mkDisplayArgs [[1, 2], [3, 4]] "a.pgm") ∧
    (mkDisplayArgs [[1, 2], [3, 4]] "a.pgm").cmap = "gray" ∧
    (mkDisplayArgs [[1, 2], [3, 4]] "a.pgm").vmin = 0 ∧
    (mkDisplayArgs [[1, 2], [3, 4]] "a.pgm").vmax = 255 ∧
    (mkDisplayArgs [[1, 2], [3, 4]] "a.pgm").colorbarLabel = "Pixel Intensity (0-255)" ∧
    (mkDisplayArgs [[1, 2], [3, 4]] "a.pgm").axisOff = true := by
  have hrun : run fsP5 "1" decStub =
      Outcome.displayed (mkDisplayArgs [[1, 2], [3, 4]] "a.pgm") := by decide
  have h := display_args_fixed_range fsP5 "1" decStub (mkDisplayArgs [[1, 2], [3, 4]] "a.pgm") hrun
  exact ⟨hrun, h.1, h.2.1, h.2.2.1, h.2.2.2.1, h.2.2.2.2.1⟩

/-- C6: discovery returns exactly the entry names with the
case-insensitive `.pgm` suffix, sorted ascending whatever order the
filesystem enumerates them in; the printed listing numbers them from 1;
and an in-range integer selection `k` picks the `k`-th name of the
sorted sequence. -/
theorem discover_sorted_exact_selection (fs fs' : FileSystem)
    (hperm : fs.entries.Perm fs'.entries) :
    (discover fs).Sorted (· ≤ ·) ∧
    (discover fs).Perm
      ((fs.entries.map Prod.fst).filter (fun n => strEndsWith (lowerString n) ".pgm")) ∧
    discover fs = discover fs' ∧
    (∀ i : Nat, (listingLines (discover fs))[i]? =
      ((discover fs)[i]?).map (fun n => Nat.repr (i + 1) ++ ". " ++ n)) ∧
    (∀ k : Nat, 1 ≤ k → ∀ h : k - 1 < (discover fs).length,
      pyIndex (discover fs) ((k : Int) - 1) = some ((discover fs).get ⟨k - 1, h⟩)) := by
  have hsorted : (discover fs).Sorted strLe := List.sorted_insertionSort strLe _
  have hsorted' : (discover fs').Sorted strLe := List.sorted_insertionSort strLe _
  have hpermfs : (discover fs).Perm
      ((fs.entries.map Prod.fst).filter (fun n => strEndsWith (lowerString n) ".pgm")) :=
    List.perm_insertionSort strLe _
  refine ⟨?_, hpermfs, ?_, ?_, ?_⟩
  · exact hsorted.imp (fun h => String.le_iff_toList_le.mpr h)
  · have hfilter :
        ((fs.entries.map Prod.fst).filter (fun n => strEndsWith (lowerString n) ".pgm")).Perm
          ((fs'.entries.map Prod.fst).filter (fun n => strEndsWith (lowerString n) ".pgm")) :=
      (hperm.map Prod.fst).filter _
    exact List.eq_of_perm_of_sorted
      ((hpermfs.trans hfilter).trans (List.perm_insertionSort strLe _).symm)
      hsorted hsorted'
  · intro i
    simp only [listingLines, List.getElem?_map, List.getElem?_enum]
    cases (discover fs)[i]? <;> rfl
  · intro k hk h
    have h0 : (0 : Int) ≤ (k : Int) - 1 := by omega
    have htn : ((k : Int) - 1).toNat = k - 1 := by omega
    rw [pyIndex, if_pos h0, htn]
    exact List.get?_eq_get h

/-- Two-entry directories enumerated in opposite orders. -/
def fsBA : FileSystem := ⟨true, [("b.pgm", [1]), ("a.pgm", [2])]⟩

/-- Same entries as `fsBA`, enumerated the other way round. -/
def fsAB : FileSystem := ⟨true, [("a.pgm", [2]), ("b.pgm", [1])]⟩

/-- Witness for C6: with entries `b.pgm`, `a.pgm` the listing shows
`1. a.pgm`, `2. b.pgm` in either enumeration order, and selecting `2`
picks `b.pgm`. -/
theorem discover_sorted_exact_selection_witness :
    fsBA.entries.Perm fsAB.entries ∧
    discover fsBA = ["a.pgm", "b.pgm"] ∧
    (discover fsBA).Sorted (· ≤ ·) ∧
    discover fsBA = discover fsAB ∧
    listingLines (discover fsBA) = ["1. a.pgm", "2. b.pgm"] ∧
    pyIndex (discover fsBA) ((2 : Int) - 1) = some "b.pgm" := by
  have hperm : fsBA.entries.Perm fsAB.entries := by decide
  have h := discover_sorted_exact_selection fsBA fsAB hperm
  refine ⟨hperm, by decide, h.1, h.2.2.1, by decide, ?_⟩
  have hsel := h.2.2.2.2 2 (by decide) (by decide)
  simpa using hsel
